import Mathlib

/-!
Shallow embedding of the job-tracker scraper (src/main.py) and proofs of the
specification claims.  HTML documents are modelled as trees of element and
text nodes; BeautifulSoup-style selection is modelled as a document-order
(pre-order) search over descendants.
-/

/-- An HTML node: an element with a tag name, attribute list and children,
or a text node.  Models the parsed tree handed to the extractors. -/
inductive Node : Type where
  | elem (tag : String) (attrs : List (String × String)) (children : List Node) : Node
  | text (s : String) : Node

/-- Is `sub` a contiguous sublist of the second list? -/
def listInfix (sub : List Char) : List Char → Bool
  | [] => sub.isEmpty
  | c :: rest => sub.isPrefixOf (c :: rest) || listInfix sub rest

/-- Substring test, modelling the Python `in` operator on strings. -/
def strContains (s sub : String) : Bool :=
  listInfix sub.toList s.toList

/-- Does `s` start with `pre`?  Models Python `str.startswith`. -/
def strStartsWith (s pre : String) : Bool :=
  pre.toList.isPrefixOf s.toList

/-- Strip leading and trailing whitespace, modelling Python `str.strip()`. -/
def strTrim (s : String) : String :=
  ⟨(((s.toList.dropWhile Char.isWhitespace).reverse.dropWhile
      Char.isWhitespace).reverse)⟩

/-- Split a character list at whitespace characters, keeping empty pieces. -/
def splitWsCore : List Char → List (List Char)
  | [] => [[]]
  | c :: rest =>
      match splitWsCore rest with
      | [] => [[]]
      | t :: ts => if c.isWhitespace then [] :: t :: ts else (c :: t) :: ts

/-- Join strings with a separator, modelling Python `sep.join(...)`. -/
def strJoin (sep : String) : List String → String
  | [] => ""
  | [x] => x
  | x :: xs => x ++ sep ++ strJoin sep xs

mutual
/-- Concatenated text of a node and all its descendants, in document order.
Models BeautifulSoup `.text` / `get_text()`. -/
def Node.allText : Node → String
  | .text s => s
  | .elem _ _ cs => allTextList cs

/-- Concatenated text of a list of nodes. -/
def allTextList : List Node → String
  | [] => ""
  | n :: ns => n.allText ++ allTextList ns
end

mutual
/-- All strict descendants of a node in document (pre-) order. -/
def Node.descendants : Node → List Node
  | .text _ => []
  | .elem _ _ cs => descendantsList cs

/-- Each node of the list followed by its descendants, in order. -/
def descendantsList : List Node → List Node
  | [] => []
  | n :: ns => n :: (n.descendants ++ descendantsList ns)
end

/-- Attribute lookup on an element, modelling `tag.get(key)` /
`tag.get(key, default)` composed with `Option.getD` at call sites. -/
def Node.getAttr : Node → String → Option String
  | .text _, _ => none
  | .elem _ attrs _, k => (attrs.find? (fun p => p.1 == k)).map (fun p => p.2)

/-- Split a raw class-attribute value into whitespace-separated tokens,
as BeautifulSoup does for the multi-valued `class` attribute. -/
def classTokens (s : String) : List String :=
  ((splitWsCore s.toList).map (fun l => (⟨l⟩ : String))).filter (fun t => t != "")

/-- The class-token list of a node; empty when there is no class attribute.
Models `tag.get(class, [])` under html.parser. -/
def Node.classList (n : Node) : List String :=
  match n.getAttr "class" with
  | some v => classTokens v
  | none => []

/-- Does the node carry the given exact class token (CSS `.cls`)? -/
def hasClassTok (c : String) (n : Node) : Bool :=
  n.classList.contains c

/-- CSS attribute-substring selector on the class attribute. -/
def classAttrContains (sub : String) (n : Node) : Bool :=
  match n.getAttr "class" with
  | some v => strContains v sub
  | none => false

/-- Tag-name selector (CSS `tag`). -/
def isTag (t : String) (n : Node) : Bool :=
  match n with
  | .elem tg _ _ => tg == t
  | .text _ => false

/-- All descendants of a node matching a selector, in document order:
models `tag.select(sel)`. -/
def Node.selectAll (n : Node) (p : Node → Bool) : List Node :=
  n.descendants.filter p

/-- First descendant of a node matching a selector, in document order:
models `tag.select_one(sel)`. -/
def Node.selectOne (n : Node) (p : Node → Bool) : Option Node :=
  n.descendants.find? p

/-- All elements of the whole document matching a selector, in document
order: models `soup.select(sel)` where the document is a list of roots. -/
def selectDoc (doc : List Node) (p : Node → Bool) : List Node :=
  (descendantsList doc).filter p

/-- One scraped job record, with the five fields written to the CSV. -/
structure JobPosting where
  company : String
  position : String
  skills : String
  link : String
  source : String
deriving DecidableEq

/-- CSS selector `tr.job`: the RemoteOK row selector. -/
def selTrJob (n : Node) : Bool :=
  isTag "tr" n && hasClassTok "job" n

/-- Is the row a featured/promoted row?  Models
`featured in job.get(class, [])`: exact token membership. -/
def isFeatured (n : Node) : Bool :=
  n.classList.contains "featured"

/-- Link fixing in `scrape_remoteok`: a non-empty link that does not start
with the literal `http` is prefixed with the RemoteOK base URL. -/
def fixLink (link : String) : String :=
  if link != "" && !(strStartsWith link "http") then "https://remoteok.com" ++ link
  else link

/-- Per-row extraction of `scrape_remoteok`: skip featured rows; require an
`h3` (company) and an `h2` (position) descendant; join the first five `.tag`
descendants into `skills`; fix the `data-url` link; source is `RemoteOK`. -/
def processRow (job : Node) : Option JobPosting :=
  if isFeatured job then none
  else
    match job.selectOne (isTag "h3"), job.selectOne (isTag "h2") with
    | some companyElem, some positionElem =>
        some {
          company := strTrim companyElem.allText
          position := strTrim positionElem.allText
          skills := strJoin ", "
            (((job.selectAll (hasClassTok "tag")).take 5).map
              (fun t => strTrim t.allText))
          link := fixLink ((job.getAttr "data-url").getD "")
          source := "RemoteOK" }
    | _, _ => none

/-- Embedding of `scrape_remoteok` after the fetch: select `tr.job` rows,
keep the first 30, and extract a record from each row that survives. -/
def scrape_remoteok (doc : List Node) : List JobPosting :=
  ((selectDoc doc selTrJob).take 30).filterMap processRow

/-- Title selector of the generic extractor:
`h2, h3, .title, [class*=title]` as one selector group. -/
def titleSel (n : Node) : Bool :=
  isTag "h2" n || isTag "h3" n || hasClassTok "title" n || classAttrContains "title" n

/-- Company selector of the generic extractor: `.company, [class*=company]`. -/
def companySel (n : Node) : Bool :=
  hasClassTok "company" n || classAttrContains "company" n

/-- Anchor selector `a[href]`. -/
def anchorSel (n : Node) : Bool :=
  isTag "a" n && (n.getAttr "href").isSome

/-- Per-element extraction of the generic extractor: require a title; a
missing company yields `N/A`; skills are always `N/A`; a missing anchor
yields an empty link; source is the requested URL. -/
def extractElem (url : String) (e : Node) : Option JobPosting :=
  match e.selectOne titleSel with
  | none => none
  | some title =>
      some {
        company :=
          match e.selectOne companySel with
          | some c => strTrim c.allText
          | none => "N/A"
        position := strTrim title.allText
        skills := "N/A"
        link :=
          match e.selectOne anchorSel with
          | some a => (a.getAttr "href").getD ""
          | none => ""
        source := url }

/-- The ordered generic selector-pattern list of `scrape_generic_jobs`. -/
def jobSelectors : List (Node → Bool) :=
  [ fun n => isTag "div" n && hasClassTok "job" n,
    fun n => isTag "div" n && hasClassTok "job-listing" n,
    fun n => isTag "article" n && hasClassTok "job" n,
    fun n => isTag "li" n && hasClassTok "job" n,
    fun n => isTag "div" n && classAttrContains "job" n,
    fun n => isTag "div" n && classAttrContains "listing" n ]

/-- The records one selector pattern contributes: the first 20 matching
elements, each run through per-element extraction. -/
def patternRecords (url : String) (doc : List Node) (s : Node → Bool) : List JobPosting :=
  ((selectDoc doc s).take 20).filterMap (extractElem url)

/-- The selector loop of `scrape_generic_jobs`, with the accumulated `jobs`
list threaded exactly as in the source: on a pattern with matches, append
its records and stop as soon as the accumulated list is non-empty. -/
def genericLoop (url : String) (doc : List Node) :
    List (Node → Bool) → List JobPosting → List JobPosting
  | [], jobs => jobs
  | s :: rest, jobs =>
      let elems := (selectDoc doc s).take 20
      if elems.isEmpty then genericLoop url doc rest jobs
      else
        let jobs2 := jobs ++ elems.filterMap (extractElem url)
        if jobs2.isEmpty then genericLoop url doc rest jobs2 else jobs2

/-- Embedding of `scrape_generic_jobs` after the fetch. -/
def scrape_generic_jobs (url : String) (doc : List Node) : List JobPosting :=
  genericLoop url doc jobSelectors []

/-- The sentinel record appended when extraction produced nothing. -/
def sentinelRow (url : String) : JobPosting :=
  { company := "N/A", position := "No jobs found", skills := "N/A",
    link := url, source := url }

/-- The `data` computed inside the `try` block of `scrape_data`: dispatch on
a `remoteok.com` substring of the URL; a raised exception (modelled by an
`Except.error` fetch outcome) leaves `data` empty. -/
def selectedData (url : String) (fetch : Except String (List Node)) : List JobPosting :=
  match fetch with
  | .error _ => []
  | .ok doc =>
      if strContains url "remoteok.com" then scrape_remoteok doc
      else scrape_generic_jobs url doc

/-- Embedding of `scrape_data`: extractor output, or the single sentinel row
when that output is empty. -/
def scrape_data (url : String) (fetch : Except String (List Node)) : List JobPosting :=
  let data := selectedData url fetch
  if data.isEmpty then [sentinelRow url] else data

/-- URL fixing in `main`: prepend `https://` unless the argument already
starts with `http://` or `https://`. -/
def normalizeCliUrl (url : String) : String :=
  if strStartsWith url "http://" || strStartsWith url "https://" then url
  else "https://" ++ url

/-! Concrete documents used as test inputs for the claims. -/

/-- A well-formed non-featured RemoteOK row. -/
def validRow : Node :=
  .elem "tr" [("class", "job")]
    [.elem "h3" [] [.text "ACME"], .elem "h2" [] [.text "Dev"]]

/-- A RemoteOK row carrying the exact `featured` class token. -/
def featuredRow : Node :=
  .elem "tr" [("class", "job featured")]
    [.elem "h3" [] [.text "Sponsor"], .elem "h2" [] [.text "Ad"]]

/-- A document with 31 rows: one featured row followed by 30 valid rows. -/
def doc31 : List Node := featuredRow :: List.replicate 30 validRow

/-- A RemoteOK row whose position element exists but has blank text. -/
def blankTitleRow : Node :=
  .elem "tr" [("class", "job")]
    [.elem "h3" [] [.text "ACME"], .elem "h2" [] [.text "   "]]

/-- A generic job element whose title element exists but has blank text. -/
def blankTitleDiv : Node :=
  .elem "div" [("class", "job")] [.elem "h2" [] [.text "   "]]

/-- A generic job element containing a class-`title` child before a heading. -/
def titleBeforeHeading (sa sb : String) : Node :=
  .elem "div" [("class", "job")]
    [.elem "div" [("class", "title")] [.text sa], .elem "h2" [] [.text sb]]

/-- A generic job element containing a heading before a class-`title` child. -/
def headingBeforeTitle (sa sb : String) : Node :=
  .elem "div" [("class", "job")]
    [.elem "h2" [] [.text sb], .elem "div" [("class", "title")] [.text sa]]

/-- A RemoteOK row whose data-url is an absolute URL with a non-http scheme. -/
def ftpRow : Node :=
  .elem "tr" [("class", "job"), ("data-url", "ftp://files.example/j1")]
    [.elem "h3" [] [.text "A"], .elem "h2" [] [.text "B"]]

/-- A RemoteOK-shaped row with given attributes and fixed valid children. -/
def mkTrRow (attrs : List (String × String)) : Node :=
  .elem "tr" attrs [.elem "h3" [] [.text "C"], .elem "h2" [] [.text "P"]]

/-- A generic job element with a title but neither company nor anchor. -/
def titleOnlyDiv : Node :=
  .elem "div" [("class", "job")] [.elem "h2" [] [.text "T"]]

/-! Shared helper lemmas about the extractors. -/

/-- A row is fully characterized when per-row extraction succeeds: it is not
featured, both the `h3` and the `h2` lookups succeed, and the record fields
are exactly the ones built from them. -/
theorem processRow_some_eq (row : Node) (rec : JobPosting)
    (h : processRow row = some rec) :
    isFeatured row = false ∧
    ∃ c p, row.selectOne (isTag "h3") = some c ∧
      row.selectOne (isTag "h2") = some p ∧
      rec = { company := strTrim c.allText
              position := strTrim p.allText
              skills := strJoin ", "
                (((row.selectAll (hasClassTok "tag")).take 5).map
                  (fun t => strTrim t.allText))
              link := fixLink ((row.getAttr "data-url").getD "")
              source := "RemoteOK" } := by
  unfold processRow at h
  by_cases hf : isFeatured row = true
  · rw [if_pos hf] at h
    simp at h
  · rw [if_neg hf] at h
    refine ⟨by simpa using hf, ?_⟩
    rcases h3 : row.selectOne (isTag "h3") with _ | c <;>
      rcases h2 : row.selectOne (isTag "h2") with _ | p <;>
      rw [h3, h2] at h
    · simp at h
    · simp at h
    · simp at h
    · exact ⟨c, p, rfl, rfl, (Option.some.inj h).symm⟩

/-- A row with no `h2` descendant produces no record. -/
theorem processRow_none_of_no_h2 (row : Node)
    (h : row.selectOne (isTag "h2") = none) : processRow row = none := by
  unfold processRow
  by_cases hf : isFeatured row = true
  · rw [if_pos hf]
  · rw [if_neg hf, h]
    rcases row.selectOne (isTag "h3") with _ | c <;> rfl

/-- A featured row produces no record. -/
theorem processRow_none_of_featured (row : Node)
    (h : isFeatured row = true) : processRow row = none := by
  unfold processRow
  rw [if_pos h]

/-- An element is fully characterized when generic per-element extraction
succeeds: the title lookup succeeds and the fields are built from it. -/
theorem extractElem_some_eq (url : String) (e : Node) (rec : JobPosting)
    (h : extractElem url e = some rec) :
    ∃ t, e.selectOne titleSel = some t ∧
      rec = { company :=
                match e.selectOne companySel with
                | some c => strTrim c.allText
                | none => "N/A"
              position := strTrim t.allText
              skills := "N/A"
              link :=
                match e.selectOne anchorSel with
                | some a => (a.getAttr "href").getD ""
                | none => ""
              source := url } := by
  unfold extractElem at h
  rcases ht : e.selectOne titleSel with _ | t <;> rw [ht] at h <;> simp at h
  exact ⟨t, rfl, h.symm⟩

/-- An element with no title match produces no record. -/
theorem extractElem_none_of_no_title (url : String) (e : Node)
    (h : e.selectOne titleSel = none) : extractElem url e = none := by
  unfold extractElem
  rw [h]

/-- Every record of the site-specific extractor comes from one of the first
30 selected rows. -/
theorem mem_scrape_remoteok (doc : List Node) (rec : JobPosting)
    (h : rec ∈ scrape_remoteok doc) :
    ∃ row ∈ (selectDoc doc selTrJob).take 30, processRow row = some rec := by
  unfold scrape_remoteok at h
  simpa using List.mem_filterMap.mp h

/-- The selector loop with an empty accumulator returns the records of the
first pattern whose filtered record list is non-empty, or nothing. -/
theorem genericLoop_eq_find (url : String) (doc : List Node)
    (sels : List (Node → Bool)) :
    genericLoop url doc sels [] =
      match sels.find? (fun s => !(patternRecords url doc s).isEmpty) with
      | some s => patternRecords url doc s
      | none => [] := by
  induction sels with
  | nil => rfl
  | cons s rest ih =>
      simp only [genericLoop, List.nil_append]
      by_cases he : ((selectDoc doc s).take 20).isEmpty = true
      · have hp : patternRecords url doc s = [] := by
          unfold patternRecords
          rw [List.isEmpty_iff.mp he]
          rfl
        rw [if_pos he, List.find?_cons_of_neg _ (by simp [hp]), ih]
      · by_cases hx :
          (((selectDoc doc s).take 20).filterMap (extractElem url)).isEmpty = true
        · have hp : patternRecords url doc s = [] := List.isEmpty_iff.mp hx
          rw [if_neg he, if_pos hx, List.isEmpty_iff.mp hx,
            List.find?_cons_of_neg _ (by simp [hp]), ih]
        · rw [if_neg he, if_neg hx,
            List.find?_cons_of_pos _ (by simpa [patternRecords] using hx)]
          rfl

/-- Every record of the generic extractor comes from per-element extraction
on one of the first 20 elements of some attempted pattern. -/
theorem mem_scrape_generic (url : String) (doc : List Node) (rec : JobPosting)
    (h : rec ∈ scrape_generic_jobs url doc) :
    ∃ s e, e ∈ (selectDoc doc s).take 20 ∧ extractElem url e = some rec := by
  unfold scrape_generic_jobs at h
  rw [genericLoop_eq_find] at h
  rcases hf : jobSelectors.find?
      (fun s => !(patternRecords url doc s).isEmpty) with _ | s <;>
    rw [hf] at h
  · simp at h
  · unfold patternRecords at h
    rcases List.mem_filterMap.mp h with ⟨e, he, hrec⟩
    exact ⟨s, e, he, hrec⟩

/-- Appending the empty string is the identity. -/
theorem strAppendEmpty (s : String) : s ++ "" = s := by
  cases s with
  | mk data =>
      show String.mk (data ++ []) = String.mk data
      rw [List.append_nil]

/-! Claim theorems. -/

/-- Claim C1: for every URL, if the selected extractor returns zero records
or raises (modelled by an error fetch outcome), `scrape_data` returns
exactly one sentinel row with company `N/A`, position `No jobs found`,
skills `N/A`, and link = source = the requested URL; consequently the
returned list is never empty. -/
theorem scrape_data_sentinel (url : String) (fetch : Except String (List Node)) :
    (selectedData url fetch = [] →
      scrape_data url fetch =
        [{ company := "N/A", position := "No jobs found", skills := "N/A",
           link := url, source := url }]) ∧
    scrape_data url fetch ≠ [] := by
  constructor
  · intro h
    unfold scrape_data
    rw [h]
    rfl
  · show (if (selectedData url fetch).isEmpty then [sentinelRow url]
        else selectedData url fetch) ≠ []
    by_cases h : (selectedData url fetch).isEmpty = true
    · rw [if_pos h]
      simp
    · rw [if_neg h]
      exact fun hc => h (by rw [hc]; rfl)

/-- Claim C1 witness: a failing fetch yields exactly the sentinel row. -/
theorem scrape_data_sentinel_witness :
    scrape_data "https://nojobs.example" (Except.error "net down") =
      [{ company := "N/A", position := "No jobs found", skills := "N/A",
         link := "https://nojobs.example", source := "https://nojobs.example" }] ∧
    scrape_data "https://nojobs.example" (Except.error "net down") ≠ [] :=
  ⟨(scrape_data_sentinel "https://nojobs.example" (.error "net down")).1 rfl,
   (scrape_data_sentinel "https://nojobs.example" (.error "net down")).2⟩

/-- Claim C2: the generic extractor returns the record list of the first
selector pattern whose title-filtered records (computed from at most its
first 20 matches) are non-empty, with no records of later patterns merged
in; patterns whose matched elements are all filtered out are passed over. -/
theorem generic_first_pattern_wins (url : String) (doc : List Node) :
    scrape_generic_jobs url doc =
      match jobSelectors.find? (fun s => !(patternRecords url doc s).isEmpty) with
      | some s => patternRecords url doc s
      | none => [] :=
  genericLoop_eq_find url doc jobSelectors

/-- Claim C3: the site-specific extractor returns at most 30 records, and
the generic extractor evaluates at most the first 20 matching elements per
pattern, so it returns at most 20 records. -/
theorem extraction_caps (doc : List Node) (url : String) :
    (scrape_remoteok doc).length ≤ 30 ∧
    (scrape_generic_jobs url doc).length ≤ 20 := by
  constructor
  · exact le_trans (List.length_filterMap_le _ _) (List.length_take_le _ _)
  · rw [show scrape_generic_jobs url doc = _ from
      genericLoop_eq_find url doc jobSelectors]
    rcases hf : jobSelectors.find?
        (fun s => !(patternRecords url doc s).isEmpty) with _ | s
    · simp
    · show (patternRecords url doc s).length ≤ 20
      exact le_trans (List.length_filterMap_le _ _) (List.length_take_le _ _)

/-- Claim C4 counterexample: on a 31-row document whose first row is
featured, all 30 non-featured rows are individually valid, yet only 29
records come back — the skipped featured row consumed one of the 30 row
slots, so it does count against further processing. -/
theorem featured_slot_cex :
    (scrape_remoteok doc31).length = 29 ∧
    ((selectDoc doc31 selTrJob).filter (fun r => !isFeatured r)).length = 30 ∧
    processRow validRow =
      some { company := "ACME", position := "Dev", skills := "", link := "",
             source := "RemoteOK" } :=
  ⟨by decide, by decide, by decide⟩

/-- Claim C4 (amended): a featured row emits no record even when it has a
valid company and position, but it does consume one of the 30 row slots:
when the first selected row is featured, only the following 29 row-elements
remain under consideration. -/
theorem featured_no_record_consumes_slot (doc : List Node) (r : Node)
    (rows : List Node) (hr : isFeatured r = true)
    (hrows : selectDoc doc selTrJob = r :: rows) :
    processRow r = none ∧
    scrape_remoteok doc = (rows.take 29).filterMap processRow := by
  refine ⟨processRow_none_of_featured r hr, ?_⟩
  unfold scrape_remoteok
  rw [hrows, show (30 : Nat) = 29 + 1 from rfl, List.take_succ_cons,
    List.filterMap_cons_none (processRow_none_of_featured r hr)]

/-- Claim C4 witness: instantiated on the 31-row document. -/
theorem featured_no_record_consumes_slot_witness :
    processRow featuredRow = none ∧
    scrape_remoteok doc31 =
      ((List.replicate 30 validRow).take 29).filterMap processRow :=
  featured_no_record_consumes_slot doc31 featuredRow
    (List.replicate 30 validRow) rfl rfl

/-- Claim C5 counterexample: a title element whose text is blank yields an
emitted record whose position is the empty string, in both extractors. -/
theorem empty_position_cex :
    scrape_remoteok [blankTitleRow] =
      [{ company := "ACME", position := "", skills := "", link := "",
         source := "RemoteOK" }] ∧
    scrape_generic_jobs "https://jobs.example" [blankTitleDiv] =
      [{ company := "N/A", position := "", skills := "N/A", link := "",
         source := "https://jobs.example" }] :=
  ⟨by decide, by decide⟩

/-- Claim C5 (amended): a record is emitted only when a title element is
located — a row or element with no title element yields no record — and the
emitted position is the stripped text of that element, which may itself be
the empty string. -/
theorem position_from_title_element (url : String) (doc : List Node) :
    (∀ rec ∈ scrape_remoteok doc, ∃ p : Node,
      rec.position = strTrim p.allText ∧
      ∃ row ∈ (selectDoc doc selTrJob).take 30,
        row.selectOne (isTag "h2") = some p) ∧
    (∀ rec ∈ scrape_generic_jobs url doc, ∃ t : Node,
      rec.position = strTrim t.allText ∧
      ∃ e : Node, e.selectOne titleSel = some t) ∧
    (∀ row : Node, row.selectOne (isTag "h2") = none → processRow row = none) ∧
    (∀ e : Node, e.selectOne titleSel = none → extractElem url e = none) := by
  refine ⟨?_, ?_, processRow_none_of_no_h2, extractElem_none_of_no_title url⟩
  · intro rec hrec
    rcases mem_scrape_remoteok doc rec hrec with ⟨row, hmem, hsome⟩
    rcases processRow_some_eq row rec hsome with ⟨-, c, p, -, h2, hrec2⟩
    exact ⟨p, by rw [hrec2], row, hmem, h2⟩
  · intro rec hrec
    rcases mem_scrape_generic url doc rec hrec with ⟨s, e, -, hsome⟩
    rcases extractElem_some_eq url e rec hsome with ⟨t, ht, hrec2⟩
    exact ⟨t, by rw [hrec2], e, ht⟩

/-- Claim C5 witness: the amended statement applied to a one-row document
and its single emitted record. -/
theorem position_from_title_element_witness :
    ∃ p : Node,
      ({ company := "ACME", position := "Dev", skills := "", link := "",
         source := "RemoteOK" } : JobPosting).position = strTrim p.allText ∧
      ∃ row ∈ (selectDoc [validRow] selTrJob).take 30,
        row.selectOne (isTag "h2") = some p :=
  (position_from_title_element "https://jobs.example" [validRow]).1
    { company := "ACME", position := "Dev", skills := "", link := "",
      source := "RemoteOK" }
    (by decide)

/-- Claim C6 counterexample: when a class-title child precedes the heading
inside a matched element, the emitted position is the class-title child's
text, not the heading's. -/
theorem title_doc_order_cex :
    (scrape_generic_jobs "http://u.example"
        [titleBeforeHeading "ClassTitle" "HeadingTitle"]).map
      (fun r => r.position) = ["ClassTitle"] ∧
    (scrape_generic_jobs "http://u.example"
        [titleBeforeHeading "ClassTitle" "HeadingTitle"]).map
      (fun r => r.position) ≠ ["HeadingTitle"] :=
  ⟨by decide, by decide⟩

/-- Claim C6 (amended): the title is the first descendant in document order
matching the grouped selector (h2, h3, class `title`, class containing
`title`), with no preference for headings: a class-title child placed
before the heading supplies the position, and the heading supplies it when
the heading comes first. -/
theorem generic_title_document_order (url sa sb : String) :
    scrape_generic_jobs url [titleBeforeHeading sa sb] =
      [{ company := "N/A", position := strTrim sa, skills := "N/A",
         link := "", source := url }] ∧
    scrape_generic_jobs url [headingBeforeTitle sa sb] =
      [{ company := "N/A", position := strTrim sb, skills := "N/A",
         link := "", source := url }] := by
  constructor
  · show [({ company := "N/A", position := strTrim (sa ++ ""),
             skills := "N/A", link := "", source := url } : JobPosting)] = _
    rw [strAppendEmpty]
  · show [({ company := "N/A", position := strTrim (sb ++ ""),
             skills := "N/A", link := "", source := url } : JobPosting)] = _
    rw [strAppendEmpty]

/-- Claim C7 counterexample: a data-url that is an absolute URL with a
non-http scheme is still prefixed with the RemoteOK base, so the
normalization is not the identity on absolute links. -/
theorem remoteok_link_scheme_cex :
    scrape_remoteok [ftpRow] =
      [{ company := "A", position := "B", skills := "",
         link := "https://remoteok.comftp://files.example/j1",
         source := "RemoteOK" }] ∧
    (scrape_remoteok [ftpRow]).map (fun r => r.link) ≠
      ["ftp://files.example/j1"] :=
  ⟨by decide, by decide⟩

/-- Claim C7 (amended): the emitted link is the raw attribute run through
link fixing; a link starting with the literal `http` (in particular every
`http://` or `https://` absolute URL) is unchanged, the empty link is
unchanged, and a non-empty link not starting with `http` gets the RemoteOK
base prefixed. -/
theorem fixLink_spec (link : String) (row : Node) (rec : JobPosting) :
    (strStartsWith link "http" = true → fixLink link = link) ∧
    (link = "" → fixLink link = link) ∧
    (link ≠ "" → strStartsWith link "http" = false →
      fixLink link = "https://remoteok.com" ++ link) ∧
    (processRow row = some rec →
      rec.link = fixLink ((row.getAttr "data-url").getD "")) := by
  refine ⟨?_, ?_, ?_, ?_⟩
  · intro h
    unfold fixLink
    rw [h]
    simp
  · intro h
    subst h
    rfl
  · intro h1 h2
    unfold fixLink
    rw [h2]
    simp [h1]
  · intro h
    rcases processRow_some_eq row rec h with ⟨-, c, p, -, -, hrec⟩
    rw [hrec]

/-- Claim C7 witness: a relative link gets the base prefixed; an absolute
http link is unchanged. -/
theorem fixLink_spec_witness :
    fixLink "/jobs/42" = "https://remoteok.com" ++ "/jobs/42" ∧
    fixLink "https://remoteok.com/a" = "https://remoteok.com/a" :=
  ⟨(fixLink_spec "/jobs/42" validRow
      { company := "", position := "", skills := "", link := "", source := "" }).2.2.1
      (by decide) (by decide),
   (fixLink_spec "https://remoteok.com/a" validRow
      { company := "", position := "", skills := "", link := "", source := "" }).1
      (by decide)⟩

/-- Claim C8: every record of the generic extractor has skills `N/A` and
source equal to the requested URL; per element, a missing company match
yields company `N/A` and a missing anchor-with-href yields an empty link. -/
theorem generic_field_defaults (url : String) (doc : List Node) (e : Node)
    (rec : JobPosting) :
    (extractElem url e = some rec →
      (e.selectOne companySel = none → rec.company = "N/A") ∧
      (e.selectOne anchorSel = none → rec.link = "") ∧
      rec.skills = "N/A" ∧ rec.source = url) ∧
    (∀ r ∈ scrape_generic_jobs url doc, r.skills = "N/A" ∧ r.source = url) := by
  constructor
  · intro h
    rcases extractElem_some_eq url e rec h with ⟨t, -, hrec⟩
    subst hrec
    refine ⟨fun hc => ?_, fun ha => ?_, rfl, rfl⟩
    · show (match e.selectOne companySel with
          | some c => strTrim c.allText
          | none => "N/A") = "N/A"
      rw [hc]
    · show (match e.selectOne anchorSel with
          | some a => (a.getAttr "href").getD ""
          | none => "") = ""
      rw [ha]
  · intro r hr
    rcases mem_scrape_generic url doc r hr with ⟨s, e2, -, hsome⟩
    rcases extractElem_some_eq url e2 r hsome with ⟨t, -, hrec⟩
    subst hrec
    exact ⟨rfl, rfl⟩

/-- Claim C8 witness: applied to an element having a title but neither a
company nor an anchor. -/
theorem generic_field_defaults_witness :
    ({ company := "N/A", position := "T", skills := "N/A", link := "",
       source := "https://jobs.example" } : JobPosting).company = "N/A" ∧
    ({ company := "N/A", position := "T", skills := "N/A", link := "",
       source := "https://jobs.example" } : JobPosting).skills = "N/A" := by
  have h := (generic_field_defaults "https://jobs.example" [] titleOnlyDiv
    { company := "N/A", position := "T", skills := "N/A", link := "",
      source := "https://jobs.example" }).1 rfl
  exact ⟨h.1 rfl, h.2.2.1⟩

/-- Claim C9 counterexample: `ftp://example.com` already carries a scheme,
yet the program still prepends `https://` instead of passing it through
unchanged. -/
theorem normalizeCliUrl_scheme_cex :
    normalizeCliUrl "ftp://example.com" = "https://ftp://example.com" ∧
    normalizeCliUrl "ftp://example.com" ≠ "ftp://example.com" :=
  ⟨by decide, by decide⟩

/-- Claim C9 (amended): `https://` is prepended exactly when the argument
does not already start with the literal `http://` or `https://`; arguments
starting with one of those two literals pass through unchanged. -/
theorem normalizeCliUrl_spec (url : String) :
    ((strStartsWith url "http://" || strStartsWith url "https://") = true →
      normalizeCliUrl url = url) ∧
    ((strStartsWith url "http://" || strStartsWith url "https://") = false →
      normalizeCliUrl url = "https://" ++ url) := by
  constructor <;> intro h <;> simp [normalizeCliUrl, h]

/-- Claim C9 witness: a scheme-less URL gets `https://` prepended, an
https URL is unchanged. -/
theorem normalizeCliUrl_spec_witness :
    normalizeCliUrl "example.com/jobs" = "https://" ++ "example.com/jobs" ∧
    normalizeCliUrl "https://a.example" = "https://a.example" :=
  ⟨(normalizeCliUrl_spec "example.com/jobs").2 (by decide),
   (normalizeCliUrl_spec "https://a.example").1 (by decide)⟩

/-- Claim C10: with valid children, a record is suppressed exactly when the
class attribute's token list contains the exact token `featured`; a class
containing `featured` only inside a longer token is processed normally, and
a row with no class attribute is never treated as featured. -/
theorem featured_exact_token (cls tag : String)
    (attrs : List (String × String)) (ch : List Node) :
    (processRow (mkTrRow [("class", cls)]) = none ↔
      "featured" ∈ classTokens cls) ∧
    (Node.getAttr (.elem tag attrs ch) "class" = none →
      isFeatured (.elem tag attrs ch) = false) ∧
    processRow (mkTrRow [("class", "job featured-top")]) =
      some { company := "C", position := "P", skills := "", link := "",
             source := "RemoteOK" } ∧
    processRow (mkTrRow []) =
      some { company := "C", position := "P", skills := "", link := "",
             source := "RemoteOK" } := by
  have hiso : isFeatured (mkTrRow [("class", cls)]) =
      (classTokens cls).contains "featured" := rfl
  refine ⟨⟨?_, ?_⟩, ?_, by decide, by decide⟩
  · intro h
    by_contra hmem
    have hf : isFeatured (mkTrRow [("class", cls)]) = false := by
      rw [hiso]
      simpa using hmem
    have hsome : processRow (mkTrRow [("class", cls)]) =
        some { company := "C", position := "P", skills := "", link := "",
               source := "RemoteOK" } := by
      unfold processRow
      rw [hf]
      rfl
    rw [h] at hsome
    simp at hsome
  · intro hmem
    apply processRow_none_of_featured
    rw [hiso]
    simpa using hmem
  · intro hnone
    unfold isFeatured Node.classList
    rw [hnone]
    rfl

/-- Claim C10 witness: a plain attribute-less element is not featured. -/
theorem featured_exact_token_witness :
    isFeatured (.elem "tr" [] []) = false :=
  (featured_exact_token "x" "tr" [] []).2.1 rfl
